import Mathlib

/-!
Verification of the OrderService domain core (`pkg/domain/service/order.go`,
`pkg/domain/model/event.go`, and the mock repository in
`pkg/domain/tests/orderservice_test.go`).

The service operations are embedded shallowly: each Go method becomes a pure
Lean function whose collaborator calls (repository `NextID`/`Find`/`Store`/
`Delete` and dispatcher `Dispatch`) are given as explicit arguments — either
the call's result (`Except Err _`) or its failure outcome (`Option Err`,
`none` meaning success).  Each function returns the Go return value, the
order passed to a successful `Store` (the persisted state), and the list of
events handed to `Dispatch`, in call order.  `DeleteOrder` is additionally
embedded against the concrete mock repository state, since its observable
behaviour (soft delete) lives in the repository.
-/

set_option linter.unusedVariables false

namespace OrderService

/-- Identifiers (`uuid.UUID` in the source), modelled as naturals. -/
abbrev UUID := Nat

/-- The zero identifier `uuid.Nil`. -/
def uuidNil : UUID := 0

/-- Item prices (`float64` in the source).  The service only stores and
copies prices, never computes with them, so an opaque carrier with decidable
equality represents them faithfully. -/
abbrev Price := Int

/-- Modelled from the spec: `model.OrderStatus`, a closed enumeration
`{Open, Paid, Shipped, Cancelled}`; its Go declaration is not under `src/`
(only the service and tests that use it are). -/
inductive OrderStatus where
  | Open
  | Paid
  | Shipped
  | Cancelled
deriving DecidableEq, Repr

/-- Modelled from the spec: `model.Item` — `{id, productId, price}`; its Go
declaration is not under `src/`. -/
structure Item where
  id : UUID
  productID : UUID
  price : Price
deriving DecidableEq, Repr

/-- Modelled from the spec: `model.Order` — the aggregate root with
`id`, `customerId`, `status`, ordered `items`, `createdAt`, `updatedAt`
and the soft-delete mark `deletedAt`; its Go declaration is not under
`src/`.  Timestamps are modelled as naturals. -/
structure Order where
  id : UUID
  customerID : UUID
  status : OrderStatus
  items : List Item
  createdAt : Nat
  updatedAt : Nat
  deletedAt : Option Nat
deriving DecidableEq, Repr

/-- The four domain-event variants of `pkg/domain/model/event.go`. -/
inductive Event where
  | OrderCreated (orderID customerID : UUID)
  | OrderItemsChanged (orderID : UUID) (addedItems removedItems : List UUID)
  | OrderStatusChanged (orderID : UUID) (newStatus : OrderStatus)
  | OrderDeleted (orderID : UUID)
deriving DecidableEq, Repr

/-- Error values returned by the service or its collaborators:
`ErrInvalidOrderStatus` and `ErrItemNotFound` from `order.go`,
`model.ErrOrderNotFound` from the repository, plus opaque collaborator
failures (repository / dispatcher errors). -/
inductive Err where
  | OrderNotFound
  | InvalidOrderStatus
  | ItemNotFound
  | RepoError
  | DispatchError
deriving DecidableEq, Repr

/-- Observable outcome of one service operation: the Go return value `ret`,
the order passed to a successful `Store` call (`none` when nothing was
persisted), and the events passed to `Dispatch`, in call order. -/
structure OpOutcome (R : Type) where
  ret : R
  stored : Option Order
  events : List Event
deriving DecidableEq, Repr

/-- Shallow embedding of `orderService.CreateOrder`.  `nextID` is the result
of the repository `NextID` call, `storeErr`/`dispatchErr` the failure
outcomes of `Store`/`Dispatch`, `now` the current time.  The Go method
returns a pair `(uuid.UUID, error)`, modelled as `UUID × Option Err`. -/
def createOrder (nextID : Except Err UUID) (storeErr dispatchErr : Option Err)
    (customerID : UUID) (now : Nat) : OpOutcome (UUID × Option Err) :=
  match nextID with
  | .error e => ⟨(uuidNil, some e), none, []⟩
  | .ok orderID =>
    let order : Order := ⟨orderID, customerID, .Open, [], now, now, none⟩
    match storeErr with
    | some e => ⟨(uuidNil, some e), none, []⟩
    | none =>
      ⟨(orderID, dispatchErr), some order, [.OrderCreated orderID customerID]⟩

/-- Shallow embedding of `orderService.SetStatus`.  `findResult` is the
result of the repository `Find` call. -/
def setStatus (findResult : Except Err Order) (storeErr dispatchErr : Option Err)
    (orderID : UUID) (status : OrderStatus) (now : Nat) : OpOutcome (Option Err) :=
  match findResult with
  | .error e => ⟨some e, none, []⟩
  | .ok order =>
    if order.status = .Cancelled then
      ⟨some .InvalidOrderStatus, none, []⟩
    else
      let order' := { order with status := status, updatedAt := now }
      match storeErr with
      | some e => ⟨some e, none, []⟩
      | none => ⟨dispatchErr, some order', [.OrderStatusChanged orderID status]⟩

/-- Shallow embedding of `orderService.AddItem`. -/
def addItem (findResult : Except Err Order) (nextID : Except Err UUID)
    (storeErr dispatchErr : Option Err)
    (orderID productID : UUID) (price : Price) (now : Nat) :
    OpOutcome (UUID × Option Err) :=
  match findResult with
  | .error e => ⟨(uuidNil, some e), none, []⟩
  | .ok order =>
    if order.status ≠ .Open then
      ⟨(uuidNil, some .InvalidOrderStatus), none, []⟩
    else
      match nextID with
      | .error e => ⟨(uuidNil, some e), none, []⟩
      | .ok itemID =>
        let order' := { order with
          items := order.items ++ [⟨itemID, productID, price⟩],
          updatedAt := now }
        match storeErr with
        | some e => ⟨(uuidNil, some e), none, []⟩
        | none =>
          ⟨(itemID, dispatchErr), some order',
            [.OrderItemsChanged orderID [itemID] []]⟩

/-- Index of the first item whose `id` equals `itemID` — the scan loop of
`orderService.DeleteItem` (`itemIndex := -1; for ...; break`), with the Go
sentinel `-1` modelled as `none`. -/
def findItemIdx (itemID : UUID) : List Item → Option Nat
  | [] => none
  | item :: rest =>
    if item.id = itemID then some 0
    else (findItemIdx itemID rest).map (· + 1)

/-- Shallow embedding of `orderService.DeleteItem`.  The Go removal
`append(order.Items[:i], order.Items[i+1:]...)` is `take i ++ drop (i+1)`. -/
def deleteItem (findResult : Except Err Order) (storeErr dispatchErr : Option Err)
    (orderID itemID : UUID) (now : Nat) : OpOutcome (Option Err) :=
  match findResult with
  | .error e => ⟨some e, none, []⟩
  | .ok order =>
    if order.status ≠ .Open then
      ⟨some .InvalidOrderStatus, none, []⟩
    else
      match findItemIdx itemID order.items with
      | none => ⟨some .ItemNotFound, none, []⟩
      | some i =>
        let order' := { order with
          items := order.items.take i ++ order.items.drop (i + 1),
          updatedAt := now }
        match storeErr with
        | some e => ⟨some e, none, []⟩
        | none =>
          ⟨dispatchErr, some order', [.OrderItemsChanged orderID [] [itemID]]⟩

/-- The in-memory state of `mockOrderRepository` (test file): a map from
order id to the stored record. -/
abbrev Store := UUID → Option Order

/-- `mockOrderRepository.Find`: absent or soft-deleted records are
`ErrOrderNotFound`. -/
def mockFind (s : Store) (id : UUID) : Except Err Order :=
  match s id with
  | none => .error .OrderNotFound
  | some order =>
    if order.deletedAt ≠ none then .error .OrderNotFound else .ok order

/-- `mockOrderRepository.Delete`: re-checks presence and the soft-delete
mark, then sets `deletedAt = now` on the stored record (nothing else on the
record changes). -/
def mockDelete (s : Store) (id : UUID) (now : Nat) : Except Err Store :=
  match s id with
  | none => .error .OrderNotFound
  | some order =>
    if order.deletedAt ≠ none then .error .OrderNotFound
    else .ok (fun i =>
      if i = id then some { order with deletedAt := some now } else s i)

/-- Shallow embedding of `orderService.DeleteOrder` run against the mock
repository.  `sFind` is the repository state seen by the `Find` call and
`sDel` the state seen by the `Delete` call — they differ exactly when the
record is modified between the two repository calls; the sequential case is
`sFind = sDel`.  Returns the Go error result, the repository state after the
operation, and the dispatched events. -/
def deleteOrder (sFind sDel : Store) (dispatchErr : Option Err)
    (orderID : UUID) (now : Nat) : Option Err × Store × List Event :=
  match mockFind sFind orderID with
  | .error e => (some e, sDel, [])
  | .ok _ =>
    match mockDelete sDel orderID now with
    | .error e => (some e, sDel, [])
    | .ok s' => (dispatchErr, s', [.OrderDeleted orderID])

/-- A concrete live order (id 1, customer 2, timestamps 0), used to evaluate
the operations on explicit repository states. -/
def sampleOrder : Order := ⟨1, 2, .Open, [], 0, 0, none⟩

/-- A repository state holding exactly `sampleOrder` under id 1. -/
def sampleStore : Store := fun i => if i = 1 then some sampleOrder else none

/-- The record under id 1 already soft-deleted (at time 3). -/
def sampleDeletedOrder : Order := ⟨1, 2, .Open, [], 0, 0, some 3⟩

/-- A repository state holding only the soft-deleted record under id 1. -/
def sampleDeletedStore : Store :=
  fun i => if i = 1 then some sampleDeletedOrder else none

/-- The empty repository state. -/
def emptyStore : Store := fun _ => none

/-- When no item of `l` carries `itemID`, the scan finds nothing. -/
theorem findItemIdx_eq_none {itemID : UUID} {l : List Item}
    (h : ∀ it ∈ l, it.id ≠ itemID) : findItemIdx itemID l = none := by
  induction l with
  | nil => rfl
  | cons x xs ih =>
    simp only [findItemIdx]
    rw [if_neg (h x (List.mem_cons_self x xs))]
    rw [ih (fun it hit => h it (List.mem_cons_of_mem x hit))]
    rfl

/-- The scan returns the index of the first occurrence. -/
theorem findItemIdx_first {itemID : UUID} {pre post : List Item} {x : Item}
    (hx : x.id = itemID) (hpre : ∀ it ∈ pre, it.id ≠ itemID) :
    findItemIdx itemID (pre ++ x :: post) = some pre.length := by
  induction pre with
  | nil => simp [findItemIdx, hx]
  | cons y ys ih =>
    simp only [List.cons_append, findItemIdx, List.append_eq]
    rw [if_neg (hpre y (List.mem_cons_self y ys))]
    rw [ih (fun it hit => hpre it (List.mem_cons_of_mem y hit))]
    rfl

/-- A list containing an item with the sought id splits at the first
occurrence of that id. -/
theorem exists_first_occ {itemID : UUID} {l : List Item}
    (h : ∃ it ∈ l, it.id = itemID) :
    ∃ pre x post, l = pre ++ x :: post ∧ x.id = itemID ∧
      ∀ it ∈ pre, it.id ≠ itemID := by
  induction l with
  | nil => simp at h
  | cons y ys ih =>
    by_cases hy : y.id = itemID
    · exact ⟨[], y, ys, rfl, hy, by simp⟩
    · obtain ⟨it, hit, hid⟩ := h
      rcases List.mem_cons.mp hit with heq | hmem
      · exact absurd (heq ▸ hid) hy
      · obtain ⟨pre, x, post, hsplit, hx, hpre⟩ := ih ⟨it, hmem, hid⟩
        refine ⟨y :: pre, x, post, by rw [hsplit]; rfl, hx, ?_⟩
        intro z hz
        rcases List.mem_cons.mp hz with hzy | hzmem
        · exact hzy ▸ hy
        · exact hpre z hzmem

/-- Removing the element at the index of the first occurrence by
`take i ++ drop (i+1)` (the Go `append(a[:i], a[i+1:]...)`) keeps exactly
the elements before and after it, in order. -/
theorem take_append_drop_succ (pre post : List Item) (x : Item) :
    (pre ++ x :: post).take pre.length ++
      (pre ++ x :: post).drop (pre.length + 1) = pre ++ post := by
  induction pre with
  | nil => simp
  | cons y ys ih =>
    simp only [List.cons_append, List.length_cons, List.take_succ_cons,
      List.drop_succ_cons, ih]

/-- `DeleteItem` on an `Open` order whose scan found index `i`, with healthy
collaborators, stores the order with that index removed and dispatches the
removal event. -/
theorem deleteItem_found (order : Order) (orderID itemID : UUID) (now : Nat)
    (hopen : order.status = .Open) {i : Nat}
    (hfind : findItemIdx itemID order.items = some i) :
    deleteItem (.ok order) none none orderID itemID now =
      ⟨none,
       some { order with
         items := order.items.take i ++ order.items.drop (i + 1),
         updatedAt := now },
       [.OrderItemsChanged orderID [] [itemID]]⟩ := by
  simp [deleteItem, hopen, hfind]

/-- C1: on an `Open` order, `AddItem` with healthy collaborators appends
exactly one item `{id, productId, price}` at the end of the items sequence
(pre-existing items unchanged), refreshes `updatedAt`, returns the freshly
allocated item id together with no error (hence a non-nil id whenever the
repository allocates a non-nil one), and dispatches exactly one
`OrderItemsChanged` event with `addedItems = [itemId]` and empty
`removedItems`; on a non-`Open` order it fails with `InvalidOrderStatus`,
persists nothing and dispatches no event, whatever the collaborators do. -/
theorem C1_addItem_spec (order : Order) (orderID productID itemID : UUID)
    (price : Price) (now : Nat) :
    (order.status = .Open →
      addItem (.ok order) (.ok itemID) none none orderID productID price now =
        ⟨(itemID, none),
         some { order with
           items := order.items ++ [⟨itemID, productID, price⟩],
           updatedAt := now },
         [.OrderItemsChanged orderID [itemID] []]⟩)
    ∧ (order.status = .Open → itemID ≠ uuidNil →
      (addItem (.ok order) (.ok itemID) none none orderID productID price
          now).ret.1 ≠ uuidNil)
    ∧ (order.status ≠ .Open → ∀ (nid : Except Err UUID) (se de : Option Err),
      addItem (.ok order) nid se de orderID productID price now =
        ⟨(uuidNil, some .InvalidOrderStatus), none, []⟩) := by
  refine ⟨fun h => ?_, fun h hnil => ?_, fun h nid se de => ?_⟩
  · simp [addItem, h]
  · simp [addItem, h]
    exact hnil
  · simp [addItem, h]

/-- Witness for C1 at a concrete order: adding item id 7 for product 3 at
price 5 to an open order, and the `Paid` rejection case. -/
theorem C1_witness :
    addItem (.ok ⟨1, 2, .Open, [], 0, 0, none⟩) (.ok 7) none none 1 3 5 9 =
      ⟨(7, none), some ⟨1, 2, .Open, [⟨7, 3, 5⟩], 0, 9, none⟩,
       [.OrderItemsChanged 1 [7] []]⟩ ∧
    addItem (.ok ⟨1, 2, .Paid, [], 0, 0, none⟩) (.ok 7) none none 1 3 5 9 =
      ⟨(0, some .InvalidOrderStatus), none, []⟩ :=
  ⟨(C1_addItem_spec ⟨1, 2, .Open, [], 0, 0, none⟩ 1 3 7 5 9).1 rfl,
   (C1_addItem_spec ⟨1, 2, .Paid, [], 0, 0, none⟩ 1 3 7 5 9).2.2
     (by decide) (.ok 7) none none⟩

/-- C2: with healthy collaborators, `SetStatus` fails with
`InvalidOrderStatus` exactly when the current status is `Cancelled`; on a
`Cancelled` order it persists nothing and dispatches nothing whatever the
collaborators do; on any other order it overwrites `status` with the
unvalidated target (including a no-op or `Cancelled` target), refreshes
`updatedAt`, persists, and dispatches exactly one `OrderStatusChanged`
event. -/
theorem C2_setStatus_spec (order : Order) (orderID : UUID)
    (st : OrderStatus) (now : Nat) :
    ((setStatus (.ok order) none none orderID st now).ret =
        some .InvalidOrderStatus ↔ order.status = .Cancelled)
    ∧ (order.status = .Cancelled → ∀ (se de : Option Err),
        setStatus (.ok order) se de orderID st now =
          ⟨some .InvalidOrderStatus, none, []⟩)
    ∧ (order.status ≠ .Cancelled →
        setStatus (.ok order) none none orderID st now =
          ⟨none, some { order with status := st, updatedAt := now },
           [.OrderStatusChanged orderID st]⟩) := by
  by_cases h : order.status = .Cancelled
  · refine ⟨by simp [setStatus, h], fun _ se de => by simp [setStatus, h],
      fun hc => absurd h hc⟩
  · refine ⟨by simp [setStatus, h], fun hc => absurd hc h,
      fun _ => by simp [setStatus, h]⟩

/-- Witness for C2 at concrete orders: setting `Paid` on an open order, the
same-status no-op, the transition to `Cancelled`, and the rejection on an
already cancelled order. -/
theorem C2_witness :
    setStatus (.ok ⟨1, 2, .Open, [], 0, 0, none⟩) none none 1 .Paid 9 =
      ⟨none, some ⟨1, 2, .Paid, [], 0, 9, none⟩,
       [.OrderStatusChanged 1 .Paid]⟩ ∧
    setStatus (.ok ⟨1, 2, .Open, [], 0, 0, none⟩) none none 1 .Open 9 =
      ⟨none, some ⟨1, 2, .Open, [], 0, 9, none⟩,
       [.OrderStatusChanged 1 .Open]⟩ ∧
    setStatus (.ok ⟨1, 2, .Open, [], 0, 0, none⟩) none none 1 .Cancelled 9 =
      ⟨none, some ⟨1, 2, .Cancelled, [], 0, 9, none⟩,
       [.OrderStatusChanged 1 .Cancelled]⟩ ∧
    setStatus (.ok ⟨1, 2, .Cancelled, [], 0, 0, none⟩) none none 1 .Paid 9 =
      ⟨some .InvalidOrderStatus, none, []⟩ :=
  ⟨(C2_setStatus_spec ⟨1, 2, .Open, [], 0, 0, none⟩ 1 .Paid 9).2.2 (by decide),
   (C2_setStatus_spec ⟨1, 2, .Open, [], 0, 0, none⟩ 1 .Open 9).2.2 (by decide),
   (C2_setStatus_spec ⟨1, 2, .Open, [], 0, 0, none⟩ 1 .Cancelled 9).2.2
     (by decide),
   (C2_setStatus_spec ⟨1, 2, .Cancelled, [], 0, 0, none⟩ 1 .Paid 9).2.1 rfl
     none none⟩

/-- C3: `DeleteItem` on an `Open` order whose items carry no occurrence of
`itemID` fails with `ItemNotFound`, persists nothing (so the order and every
one of its fields are unchanged) and dispatches no event, whatever the
collaborators would have done. -/
theorem C3_deleteItem_notFound (order : Order) (orderID itemID : UUID)
    (now : Nat) (hopen : order.status = .Open)
    (habs : ∀ it ∈ order.items, it.id ≠ itemID) :
    ∀ (se de : Option Err),
      deleteItem (.ok order) se de orderID itemID now =
        ⟨some .ItemNotFound, none, []⟩ := by
  intro se de
  simp [deleteItem, hopen, findItemIdx_eq_none habs]

/-- Witness for C3 at a concrete order holding items 7 and 8: deleting the
absent id 9 fails without mutation or event. -/
theorem C3_witness :
    deleteItem (.ok ⟨1, 2, .Open, [⟨7, 3, 5⟩, ⟨8, 4, 6⟩], 0, 0, none⟩)
        none none 1 9 11 =
      ⟨some .ItemNotFound, none, []⟩ :=
  C3_deleteItem_notFound ⟨1, 2, .Open, [⟨7, 3, 5⟩, ⟨8, 4, 6⟩], 0, 0, none⟩
    1 9 11 rfl (by decide) none none

/-- C6: when the repository allocates a (non-nil) id and persistence and
dispatch succeed, `CreateOrder` returns that id with no error, persists an
order with `status = Open`, empty items, the given `customerId`, and
`createdAt = updatedAt = now`, and dispatches exactly one `OrderCreated`
event carrying the same order id and customer id. -/
theorem C6_createOrder_spec (orderID customerID : UUID) (now : Nat)
    (h : orderID ≠ uuidNil) :
    createOrder (.ok orderID) none none customerID now =
      ⟨(orderID, none),
       some ⟨orderID, customerID, .Open, [], now, now, none⟩,
       [.OrderCreated orderID customerID]⟩
    ∧ (createOrder (.ok orderID) none none customerID now).ret.1 ≠ uuidNil :=
  ⟨rfl, h⟩

/-- Witness for C6 at order id 1, customer 2, time 4. -/
theorem C6_witness :
    createOrder (.ok 1) none none 2 4 =
      ⟨(1, none), some ⟨1, 2, .Open, [], 4, 4, none⟩, [.OrderCreated 1 2]⟩ ∧
    (createOrder (.ok 1) none none 2 4).ret.1 ≠ uuidNil :=
  C6_createOrder_spec 1 2 4 (by decide)

/-- C5: `DeleteOrder` fails with `OrderNotFound` when the record is absent
or already soft-deleted; when the record is soft-deleted between the `Find`
and the `Delete` repository calls, the `Delete` call re-checks and the
operation still fails with `OrderNotFound` and dispatches nothing; on
success the stored record is retained with `deletedAt` set to the current
time, a subsequent `Find` on that id fails with `OrderNotFound`, and exactly
one `OrderDeleted` event is dispatched. -/
theorem C5_deleteOrder_spec (s : Store) (orderID : UUID) (now : Nat) :
    (s orderID = none →
      deleteOrder s s none orderID now = (some .OrderNotFound, s, []))
    ∧ (∀ o, s orderID = some o → o.deletedAt ≠ none →
      deleteOrder s s none orderID now = (some .OrderNotFound, s, []))
    ∧ (∀ (sFind : Store) (o : Order), sFind orderID = some o →
        o.deletedAt = none → ∀ o₂, s orderID = some o₂ → o₂.deletedAt ≠ none →
      deleteOrder sFind s none orderID now = (some .OrderNotFound, s, []))
    ∧ (∀ o, s orderID = some o → o.deletedAt = none →
      deleteOrder s s none orderID now =
        (none,
         fun i =>
           if i = orderID then some { o with deletedAt := some now } else s i,
         [.OrderDeleted orderID])
      ∧ mockFind (deleteOrder s s none orderID now).2.1 orderID =
          .error .OrderNotFound) := by
  refine ⟨fun h => ?_, fun o h hd => ?_, fun sFind o hf hl o₂ h hd => ?_,
    fun o h hl => ?_⟩
  · simp [deleteOrder, mockFind, h]
  · simp [deleteOrder, mockFind, h, hd]
  · simp [deleteOrder, mockFind, mockDelete, hf, hl, h, hd]
  · have hrun : deleteOrder s s none orderID now =
        (none,
         fun i =>
           if i = orderID then some { o with deletedAt := some now } else s i,
         [.OrderDeleted orderID]) := by
      simp [deleteOrder, mockFind, mockDelete, h, hl]
    refine ⟨hrun, ?_⟩
    rw [hrun]
    simp [mockFind]

/-- Witness for C5: the empty store, an already-soft-deleted record, the
record soft-deleted between the two repository calls, and the successful
soft delete followed by a failing `Find`. -/
theorem C5_witness :
    deleteOrder emptyStore emptyStore none 1 5 =
      (some .OrderNotFound, emptyStore, []) ∧
    deleteOrder sampleDeletedStore sampleDeletedStore none 1 5 =
      (some .OrderNotFound, sampleDeletedStore, []) ∧
    deleteOrder sampleStore sampleDeletedStore none 1 5 =
      (some .OrderNotFound, sampleDeletedStore, []) ∧
    (deleteOrder sampleStore sampleStore none 1 5).2.2 = [.OrderDeleted 1] ∧
    mockFind (deleteOrder sampleStore sampleStore none 1 5).2.1 1 =
      .error .OrderNotFound :=
  ⟨(C5_deleteOrder_spec emptyStore 1 5).1 rfl,
   (C5_deleteOrder_spec sampleDeletedStore 1 5).2.1 sampleDeletedOrder rfl
     (by decide),
   (C5_deleteOrder_spec sampleDeletedStore 1 5).2.2.1 sampleStore sampleOrder
     rfl rfl sampleDeletedOrder rfl (by decide),
   by rw [((C5_deleteOrder_spec sampleStore 1 5).2.2.2 sampleOrder rfl rfl).1],
   ((C5_deleteOrder_spec sampleStore 1 5).2.2.2 sampleOrder rfl rfl).2⟩

/-- C4 counterexample: on the concrete store holding a live order whose
`updatedAt` is `0`, `DeleteOrder` at time `5` succeeds and dispatches
exactly one event, yet the stored record keeps `updatedAt = 0 ≠ 5` — the
soft delete does not refresh `updatedAt`, contradicting the claim that
every successful mutation (in particular `DeleteOrder`) does. -/
theorem C4_counterexample :
    (deleteOrder sampleStore sampleStore none 1 5).1 = none ∧
    (deleteOrder sampleStore sampleStore none 1 5).2.2 = [.OrderDeleted 1] ∧
    (deleteOrder sampleStore sampleStore none 1 5).2.1 1 =
      some ⟨1, 2, .Open, [], 0, 0, some 5⟩ ∧
    (⟨1, 2, .Open, [], 0, 0, some 5⟩ : Order).updatedAt ≠ 5 := by
  refine ⟨rfl, rfl, by decide, by decide⟩

/-- C4 (amended): every successful mutation dispatches exactly one domain
event; `CreateOrder`, `SetStatus`, `AddItem` and `DeleteItem` moreover set
the persisted order's `updatedAt` to the current time, while the soft-delete
`DeleteOrder` sets `deletedAt` to the current time and leaves the rest of
the stored record — `updatedAt` included — unchanged. -/
theorem C4_mutations_emit_one_event :
    (∀ (orderID customerID : UUID) (now : Nat),
      (createOrder (.ok orderID) none none customerID now).stored.map
          Order.updatedAt = some now ∧
      (createOrder (.ok orderID) none none customerID now).events.length = 1)
    ∧ (∀ (order : Order) (orderID : UUID) (st : OrderStatus) (now : Nat),
      order.status ≠ .Cancelled →
      (setStatus (.ok order) none none orderID st now).stored.map
          Order.updatedAt = some now ∧
      (setStatus (.ok order) none none orderID st now).events.length = 1)
    ∧ (∀ (order : Order) (orderID productID itemID : UUID) (price : Price)
        (now : Nat), order.status = .Open →
      (addItem (.ok order) (.ok itemID) none none orderID productID price
          now).stored.map Order.updatedAt = some now ∧
      (addItem (.ok order) (.ok itemID) none none orderID productID price
          now).events.length = 1)
    ∧ (∀ (order : Order) (orderID itemID : UUID) (now i : Nat),
      order.status = .Open → findItemIdx itemID order.items = some i →
      (deleteItem (.ok order) none none orderID itemID now).stored.map
          Order.updatedAt = some now ∧
      (deleteItem (.ok order) none none orderID itemID now).events.length = 1)
    ∧ (∀ (s : Store) (orderID : UUID) (now : Nat) (o : Order),
      s orderID = some o → o.deletedAt = none →
      (deleteOrder s s none orderID now).1 = none ∧
      (deleteOrder s s none orderID now).2.2 = [.OrderDeleted orderID] ∧
      (deleteOrder s s none orderID now).2.1 orderID =
        some { o with deletedAt := some now }) := by
  refine ⟨fun orderID customerID now => ⟨rfl, rfl⟩,
    fun order orderID st now h => ?_,
    fun order orderID productID itemID price now h => ?_,
    fun order orderID itemID now i h hfind => ?_,
    fun s orderID now o h hl => ?_⟩
  · exact ⟨by simp [setStatus, h], by simp [setStatus, h]⟩
  · exact ⟨by simp [addItem, h], by simp [addItem, h]⟩
  · exact ⟨by simp [deleteItem, h, hfind], by simp [deleteItem, h, hfind]⟩
  · refine ⟨?_, ?_, ?_⟩ <;> simp [deleteOrder, mockFind, mockDelete, h, hl]

/-- Witness for C4 (amended) at concrete inputs: each of the five
operations run successfully at time 9. -/
theorem C4_witness :
    ((createOrder (.ok 1) none none 2 9).stored.map Order.updatedAt = some 9 ∧
     (createOrder (.ok 1) none none 2 9).events.length = 1) ∧
    ((setStatus (.ok ⟨1, 2, .Open, [], 0, 0, none⟩) none none 1 .Paid
        9).stored.map Order.updatedAt = some 9 ∧
     (setStatus (.ok ⟨1, 2, .Open, [], 0, 0, none⟩) none none 1 .Paid
        9).events.length = 1) ∧
    ((addItem (.ok ⟨1, 2, .Open, [], 0, 0, none⟩) (.ok 7) none none 1 3 5
        9).stored.map Order.updatedAt = some 9 ∧
     (addItem (.ok ⟨1, 2, .Open, [], 0, 0, none⟩) (.ok 7) none none 1 3 5
        9).events.length = 1) ∧
    ((deleteItem (.ok ⟨1, 2, .Open, [⟨7, 3, 5⟩], 0, 0, none⟩) none none 1 7
        9).stored.map Order.updatedAt = some 9 ∧
     (deleteItem (.ok ⟨1, 2, .Open, [⟨7, 3, 5⟩], 0, 0, none⟩) none none 1 7
        9).events.length = 1) ∧
    ((deleteOrder sampleStore sampleStore none 1 9).1 = none ∧
     (deleteOrder sampleStore sampleStore none 1 9).2.2 = [.OrderDeleted 1] ∧
     (deleteOrder sampleStore sampleStore none 1 9).2.1 1 =
       some ⟨1, 2, .Open, [], 0, 0, some 9⟩) :=
  ⟨C4_mutations_emit_one_event.1 1 2 9,
   C4_mutations_emit_one_event.2.1 ⟨1, 2, .Open, [], 0, 0, none⟩ 1 .Paid 9
     (by decide),
   C4_mutations_emit_one_event.2.2.1 ⟨1, 2, .Open, [], 0, 0, none⟩ 1 3 7 5 9
     rfl,
   C4_mutations_emit_one_event.2.2.2.1 ⟨1, 2, .Open, [⟨7, 3, 5⟩], 0, 0, none⟩
     1 7 9 0 rfl rfl,
   C4_mutations_emit_one_event.2.2.2.2 sampleStore 1 9 sampleOrder rfl rfl⟩

/-- C7: for every operation, dispatch happens only after persistence
succeeded — when ID allocation, `Find`, `Store` or `Delete` fails the
operation returns that error, persists nothing further and dispatches no
event; when the dispatch call itself fails after a successful `Store` (or
`Delete`), the operation returns a failure result although the mutated
state remains persisted and exactly one event was handed to the failing
dispatcher. -/
theorem C7_dispatch_after_persistence :
    (∀ (e : Err) (se de : Option Err) (customerID : UUID) (now : Nat),
      createOrder (.error e) se de customerID now =
        ⟨(uuidNil, some e), none, []⟩)
    ∧ (∀ (orderID : UUID) (e : Err) (de : Option Err) (customerID : UUID)
        (now : Nat),
      createOrder (.ok orderID) (some e) de customerID now =
        ⟨(uuidNil, some e), none, []⟩)
    ∧ (∀ (orderID : UUID) (e : Err) (customerID : UUID) (now : Nat),
      (createOrder (.ok orderID) none (some e) customerID now).ret.2 =
        some e ∧
      (createOrder (.ok orderID) none (some e) customerID now).stored ≠
        none ∧
      (createOrder (.ok orderID) none (some e) customerID now).events.length
        = 1)
    ∧ (∀ (e : Err) (se de : Option Err) (orderID : UUID) (st : OrderStatus)
        (now : Nat),
      setStatus (.error e) se de orderID st now = ⟨some e, none, []⟩)
    ∧ (∀ (order : Order) (e : Err) (de : Option Err) (orderID : UUID)
        (st : OrderStatus) (now : Nat), order.status ≠ .Cancelled →
      setStatus (.ok order) (some e) de orderID st now =
        ⟨some e, none, []⟩)
    ∧ (∀ (order : Order) (e : Err) (orderID : UUID) (st : OrderStatus)
        (now : Nat), order.status ≠ .Cancelled →
      (setStatus (.ok order) none (some e) orderID st now).ret = some e ∧
      (setStatus (.ok order) none (some e) orderID st now).stored ≠ none)
    ∧ (∀ (e : Err) (nid : Except Err UUID) (se de : Option Err)
        (orderID productID : UUID) (price : Price) (now : Nat),
      addItem (.error e) nid se de orderID productID price now =
        ⟨(uuidNil, some e), none, []⟩)
    ∧ (∀ (order : Order) (e : Err) (se de : Option Err)
        (orderID productID : UUID) (price : Price) (now : Nat),
      order.status = .Open →
      addItem (.ok order) (.error e) se de orderID productID price now =
        ⟨(uuidNil, some e), none, []⟩)
    ∧ (∀ (order : Order) (itemID : UUID) (e : Err) (de : Option Err)
        (orderID productID : UUID) (price : Price) (now : Nat),
      order.status = .Open →
      addItem (.ok order) (.ok itemID) (some e) de orderID productID price
          now = ⟨(uuidNil, some e), none, []⟩)
    ∧ (∀ (order : Order) (itemID : UUID) (e : Err)
        (orderID productID : UUID) (price : Price) (now : Nat),
      order.status = .Open →
      (addItem (.ok order) (.ok itemID) none (some e) orderID productID
          price now).ret.2 = some e ∧
      (addItem (.ok order) (.ok itemID) none (some e) orderID productID
          price now).stored ≠ none)
    ∧ (∀ (e : Err) (se de : Option Err) (orderID itemID : UUID) (now : Nat),
      deleteItem (.error e) se de orderID itemID now = ⟨some e, none, []⟩)
    ∧ (∀ (order : Order) (e : Err) (de : Option Err) (orderID itemID : UUID)
        (now i : Nat), order.status = .Open →
      findItemIdx itemID order.items = some i →
      deleteItem (.ok order) (some e) de orderID itemID now =
        ⟨some e, none, []⟩)
    ∧ (∀ (order : Order) (e : Err) (orderID itemID : UUID) (now i : Nat),
      order.status = .Open → findItemIdx itemID order.items = some i →
      (deleteItem (.ok order) none (some e) orderID itemID now).ret =
        some e ∧
      (deleteItem (.ok order) none (some e) orderID itemID now).stored ≠
        none)
    ∧ (∀ (s : Store) (de : Option Err) (orderID : UUID) (now : Nat),
      mockFind s orderID = .error .OrderNotFound →
      deleteOrder s s de orderID now = (some .OrderNotFound, s, []))
    ∧ (∀ (s : Store) (e : Err) (orderID : UUID) (now : Nat) (o : Order),
      s orderID = some o → o.deletedAt = none →
      (deleteOrder s s (some e) orderID now).1 = some e ∧
      (deleteOrder s s (some e) orderID now).2.1 orderID =
        some { o with deletedAt := some now } ∧
      (deleteOrder s s (some e) orderID now).2.2.length = 1) := by
  refine ⟨fun e se de customerID now => rfl,
    fun orderID e de customerID now => rfl,
    fun orderID e customerID now => ⟨rfl, by simp [createOrder], rfl⟩,
    fun e se de orderID st now => rfl,
    fun order e de orderID st now h => by simp [setStatus, h],
    fun order e orderID st now h =>
      ⟨by simp [setStatus, h], by simp [setStatus, h]⟩,
    fun e nid se de orderID productID price now => rfl,
    fun order e se de orderID productID price now h => by simp [addItem, h],
    fun order itemID e de orderID productID price now h => by
      simp [addItem, h],
    fun order itemID e orderID productID price now h =>
      ⟨by simp [addItem, h], by simp [addItem, h]⟩,
    fun e se de orderID itemID now => rfl,
    fun order e de orderID itemID now i h hfind => by
      simp [deleteItem, h, hfind],
    fun order e orderID itemID now i h hfind =>
      ⟨by simp [deleteItem, h, hfind], by simp [deleteItem, h, hfind]⟩,
    fun s de orderID now h => by simp [deleteOrder, h],
    fun s e orderID now o h hl => by
      refine ⟨?_, ?_, ?_⟩ <;>
        simp [deleteOrder, mockFind, mockDelete, h, hl]⟩

/-- Witness for C7: each failure position exercised at concrete inputs —
`RepoError` from ID allocation, `Store` and `Delete` positions, and
`DispatchError` from the dispatcher after a successful persist. -/
theorem C7_witness :
    createOrder (.error .RepoError) none none 2 9 =
      ⟨(0, some .RepoError), none, []⟩ ∧
    createOrder (.ok 1) (some .RepoError) none 2 9 =
      ⟨(0, some .RepoError), none, []⟩ ∧
    (createOrder (.ok 1) none (some .DispatchError) 2 9).ret.2 =
      some .DispatchError ∧
    setStatus (.error .OrderNotFound) none none 1 .Paid 9 =
      ⟨some .OrderNotFound, none, []⟩ ∧
    setStatus (.ok ⟨1, 2, .Open, [], 0, 0, none⟩) (some .RepoError) none 1
      .Paid 9 = ⟨some .RepoError, none, []⟩ ∧
    (setStatus (.ok ⟨1, 2, .Open, [], 0, 0, none⟩) none
      (some .DispatchError) 1 .Paid 9).ret = some .DispatchError ∧
    addItem (.error .OrderNotFound) (.ok 7) none none 1 3 5 9 =
      ⟨(0, some .OrderNotFound), none, []⟩ ∧
    addItem (.ok ⟨1, 2, .Open, [], 0, 0, none⟩) (.error .RepoError) none
      none 1 3 5 9 = ⟨(0, some .RepoError), none, []⟩ ∧
    addItem (.ok ⟨1, 2, .Open, [], 0, 0, none⟩) (.ok 7) (some .RepoError)
      none 1 3 5 9 = ⟨(0, some .RepoError), none, []⟩ ∧
    (addItem (.ok ⟨1, 2, .Open, [], 0, 0, none⟩) (.ok 7) none
      (some .DispatchError) 1 3 5 9).ret.2 = some .DispatchError ∧
    deleteItem (.error .OrderNotFound) none none 1 7 9 =
      ⟨some .OrderNotFound, none, []⟩ ∧
    deleteItem (.ok ⟨1, 2, .Open, [⟨7, 3, 5⟩], 0, 0, none⟩)
      (some .RepoError) none 1 7 9 = ⟨some .RepoError, none, []⟩ ∧
    (deleteItem (.ok ⟨1, 2, .Open, [⟨7, 3, 5⟩], 0, 0, none⟩) none
      (some .DispatchError) 1 7 9).ret = some .DispatchError ∧
    deleteOrder emptyStore emptyStore (some .DispatchError) 1 9 =
      (some .OrderNotFound, emptyStore, []) ∧
    (deleteOrder sampleStore sampleStore (some .DispatchError) 1 9).1 =
      some .DispatchError :=
  ⟨C7_dispatch_after_persistence.1 .RepoError none none 2 9,
   C7_dispatch_after_persistence.2.1 1 .RepoError none 2 9,
   (C7_dispatch_after_persistence.2.2.1 1 .DispatchError 2 9).1,
   C7_dispatch_after_persistence.2.2.2.1 .OrderNotFound none none 1 .Paid 9,
   C7_dispatch_after_persistence.2.2.2.2.1 ⟨1, 2, .Open, [], 0, 0, none⟩
     .RepoError none 1 .Paid 9 (by decide),
   (C7_dispatch_after_persistence.2.2.2.2.2.1 ⟨1, 2, .Open, [], 0, 0, none⟩
     .DispatchError 1 .Paid 9 (by decide)).1,
   C7_dispatch_after_persistence.2.2.2.2.2.2.1 .OrderNotFound (.ok 7) none
     none 1 3 5 9,
   C7_dispatch_after_persistence.2.2.2.2.2.2.2.1
     ⟨1, 2, .Open, [], 0, 0, none⟩ .RepoError none none 1 3 5 9 rfl,
   C7_dispatch_after_persistence.2.2.2.2.2.2.2.2.1
     ⟨1, 2, .Open, [], 0, 0, none⟩ 7 .RepoError none 1 3 5 9 rfl,
   (C7_dispatch_after_persistence.2.2.2.2.2.2.2.2.2.1
     ⟨1, 2, .Open, [], 0, 0, none⟩ 7 .DispatchError 1 3 5 9 rfl).1,
   C7_dispatch_after_persistence.2.2.2.2.2.2.2.2.2.2.1 .OrderNotFound none
     none 1 7 9,
   C7_dispatch_after_persistence.2.2.2.2.2.2.2.2.2.2.2.1
     ⟨1, 2, .Open, [⟨7, 3, 5⟩], 0, 0, none⟩ .RepoError none 1 7 9 0 rfl rfl,
   (C7_dispatch_after_persistence.2.2.2.2.2.2.2.2.2.2.2.2.1
     ⟨1, 2, .Open, [⟨7, 3, 5⟩], 0, 0, none⟩ .DispatchError 1 7 9 0 rfl
     rfl).1,
   C7_dispatch_after_persistence.2.2.2.2.2.2.2.2.2.2.2.2.2.1 emptyStore
     (some .DispatchError) 1 9 rfl,
   (C7_dispatch_after_persistence.2.2.2.2.2.2.2.2.2.2.2.2.2.2 sampleStore
     .DispatchError 1 9 sampleOrder rfl rfl).1⟩

/-- C8: on an `Open` order whose items contain the sought id, a successful
`DeleteItem` persists the order with one item fewer, the remaining items
being a sublist of the original sequence (so their relative insertion order
is preserved), with `updatedAt` refreshed and the removal event
dispatched. -/
theorem C8_deleteItem_shrinks (order : Order) (orderID itemID : UUID)
    (now : Nat) (hopen : order.status = .Open)
    (hmem : ∃ it ∈ order.items, it.id = itemID) :
    ∃ o', deleteItem (.ok order) none none orderID itemID now =
        ⟨none, some o', [.OrderItemsChanged orderID [] [itemID]]⟩
      ∧ o'.items.length + 1 = order.items.length
      ∧ o'.items.Sublist order.items
      ∧ o'.updatedAt = now := by
  obtain ⟨pre, x, post, heq, hx, hpre⟩ := exists_first_occ hmem
  have hfind : findItemIdx itemID order.items = some pre.length := by
    rw [heq]; exact findItemIdx_first hx hpre
  have hitems : order.items.take pre.length ++
      order.items.drop (pre.length + 1) = pre ++ post := by
    rw [heq]; exact take_append_drop_succ pre post x
  refine ⟨{ order with items := pre ++ post, updatedAt := now },
    ?_, ?_, ?_, rfl⟩
  · rw [deleteItem_found order orderID itemID now hopen hfind, hitems]
  · show (pre ++ post).length + 1 = order.items.length
    rw [heq]
    simp only [List.length_append, List.length_cons]
    omega
  · show (pre ++ post).Sublist order.items
    rw [heq]
    exact (List.sublist_cons_self x post).append_left pre

/-- Witness for C8: deleting item 7 from an open order holding items 7 and
8 leaves the single item 8 and refreshes `updatedAt` to 9. -/
theorem C8_witness :
    ∃ o', deleteItem (.ok ⟨1, 2, .Open, [⟨7, 3, 5⟩, ⟨8, 4, 6⟩], 0, 0, none⟩)
        none none 1 7 9 =
        ⟨none, some o', [.OrderItemsChanged 1 [] [7]]⟩
      ∧ o'.items.length + 1 = 2
      ∧ o'.items.Sublist [⟨7, 3, 5⟩, ⟨8, 4, 6⟩]
      ∧ o'.updatedAt = 9 :=
  C8_deleteItem_shrinks ⟨1, 2, .Open, [⟨7, 3, 5⟩, ⟨8, 4, 6⟩], 0, 0, none⟩
    1 7 9 rfl ⟨⟨7, 3, 5⟩, by decide, rfl⟩

/-- C9: when persistence succeeds and only the dispatch fails, `CreateOrder`
still returns the freshly allocated order id (non-nil whenever the
repository allocated a non-nil one) paired with the dispatch error, and
`AddItem` likewise returns the freshly allocated item id paired with the
dispatch error; in both cases the mutated order was persisted. -/
theorem C9_dispatch_failure_returns_ids (order : Order)
    (orderID itemID customerID productID : UUID) (price : Price) (now : Nat)
    (e : Err) (hopen : order.status = .Open) :
    ((createOrder (.ok orderID) none (some e) customerID now).ret =
        (orderID, some e)
      ∧ (createOrder (.ok orderID) none (some e) customerID now).stored ≠
          none)
    ∧ ((addItem (.ok order) (.ok itemID) none (some e) orderID productID
          price now).ret = (itemID, some e)
      ∧ (addItem (.ok order) (.ok itemID) none (some e) orderID productID
          price now).stored ≠ none)
    ∧ (orderID ≠ uuidNil →
      (createOrder (.ok orderID) none (some e) customerID now).ret.1 ≠
        uuidNil)
    ∧ (itemID ≠ uuidNil →
      (addItem (.ok order) (.ok itemID) none (some e) orderID productID
          price now).ret.1 ≠ uuidNil) := by
  refine ⟨⟨rfl, by simp [createOrder]⟩,
    ⟨by simp [addItem, hopen], by simp [addItem, hopen]⟩,
    fun h => h, fun h => ?_⟩
  simp [addItem, hopen]
  exact h

/-- Witness for C9: order id 1 and item id 7 are both returned alongside
the dispatch error. -/
theorem C9_witness :
    (createOrder (.ok 1) none (some .DispatchError) 2 9).ret =
      (1, some .DispatchError) ∧
    (addItem (.ok ⟨1, 2, .Open, [], 0, 0, none⟩) (.ok 7) none
      (some .DispatchError) 1 3 5 9).ret = (7, some .DispatchError) ∧
    (1 : UUID) ≠ uuidNil ∧ (7 : UUID) ≠ uuidNil :=
  ⟨(C9_dispatch_failure_returns_ids ⟨1, 2, .Open, [], 0, 0, none⟩ 1 7 2 3 5 9
      .DispatchError rfl).1.1,
   (C9_dispatch_failure_returns_ids ⟨1, 2, .Open, [], 0, 0, none⟩ 1 7 2 3 5 9
      .DispatchError rfl).2.1.1,
   by decide, by decide⟩

/-- C10: when the items sequence splits as `pre ++ x :: post` with `x` the
first occurrence of the sought id (no occurrence in `pre`), `DeleteItem`
removes exactly that occurrence: the persisted sequence is `pre ++ post`,
so every later occurrence of the same id inside `post` stays in place. -/
theorem C10_deleteItem_first_occurrence (order : Order)
    (orderID itemID : UUID) (now : Nat) (pre post : List Item) (x : Item)
    (hopen : order.status = .Open) (heq : order.items = pre ++ x :: post)
    (hx : x.id = itemID) (hpre : ∀ it ∈ pre, it.id ≠ itemID) :
    deleteItem (.ok order) none none orderID itemID now =
      ⟨none, some { order with items := pre ++ post, updatedAt := now },
       [.OrderItemsChanged orderID [] [itemID]]⟩ := by
  have hfind : findItemIdx itemID order.items = some pre.length := by
    rw [heq]; exact findItemIdx_first hx hpre
  have hitems : order.items.take pre.length ++
      order.items.drop (pre.length + 1) = pre ++ post := by
    rw [heq]; exact take_append_drop_succ pre post x
  rw [deleteItem_found order orderID itemID now hopen hfind, hitems]

/-- Witness for C10 on a duplicated id: the order holds two items with id 9;
deleting id 9 removes only the first of them (product 4) and keeps the
later duplicate (product 8). -/
theorem C10_witness :
    deleteItem
        (.ok ⟨1, 2, .Open, [⟨5, 1, 1⟩, ⟨9, 4, 6⟩, ⟨9, 8, 2⟩], 0, 0, none⟩)
        none none 1 9 11 =
      ⟨none, some ⟨1, 2, .Open, [⟨5, 1, 1⟩, ⟨9, 8, 2⟩], 0, 11, none⟩,
       [.OrderItemsChanged 1 [] [9]]⟩ :=
  C10_deleteItem_first_occurrence
    ⟨1, 2, .Open, [⟨5, 1, 1⟩, ⟨9, 4, 6⟩, ⟨9, 8, 2⟩], 0, 0, none⟩
    1 9 11 [⟨5, 1, 1⟩] [⟨9, 8, 2⟩] ⟨9, 4, 6⟩ rfl rfl rfl (by decide)

end OrderService
